import Mathlib

/-!
Shallow embedding of the `BenderMQ` trait implementation for `Channel`
from bender-mq's `src/lib.rs`.

The amqp crate's `Channel` is modelled as a trace of the wire-level calls
issued through it (`exchange_declare`, `queue_declare`, `queue_bind`,
`basic_publish`) together with the lines printed to stdout (`println!`),
which is the diagnostic sink of this library.  The broker/network side is an
oracle `Broker : AmqpCall → Option String` deciding, per call, whether the
collaborator call succeeds (`none`) or fails with an error rendered as a
string (`some err`), mirroring the `Result<_, AMQPError>` returns of the
amqp crate.  `Table::new()` arguments are modelled as an (always empty)
association list.  Message bodies (`Into<Vec<u8>>`) are byte lists.
-/

/-- Message properties (`protocol::basic::BasicProperties`); the library only
ever sets `content_type`, all other fields stay at their defaults and are
elided. -/
structure BasicProperties where
  content_type : Option String
  deriving Repr, DecidableEq

/-- One wire-level operation issued through the underlying amqp channel, with
the exact arguments the library passes to the collaborator. -/
inductive AmqpCall where
  | exchangeDeclare (exchange exchange_type : String)
      (passive durable auto_delete internal nowait : Bool)
      (arguments : List (String × String))
  | queueDeclare (queue : String)
      (passive durable exclusive auto_delete nowait : Bool)
      (arguments : List (String × String))
  | queueBind (queue exchange routing_key : String) (nowait : Bool)
      (arguments : List (String × String))
  | basicPublish (exchange routing_key : String) (mandatory immediate : Bool)
      (properties : BasicProperties) (message : List Nat)
  deriving Repr, DecidableEq

/-- The amqp `Channel`, modelled as the trace of collaborator calls made on
it plus the diagnostic lines printed so far. -/
structure Channel where
  calls : List AmqpCall
  log : List String
  deriving Repr, DecidableEq

/-- A channel on which nothing has happened yet. -/
def Channel.empty : Channel := { calls := [], log := [] }

/-- The broker-side oracle: for each call, `none` means the collaborator call
returns `Ok`, `some err` means it returns `Err` with display text `err`. -/
def Broker : Type := AmqpCall → Option String

/-- The exchange argument carried by a call, when it has one. -/
def AmqpCall.exchangeOf : AmqpCall → Option String
  | .exchangeDeclare e _ _ _ _ _ _ _ => some e
  | .queueDeclare _ _ _ _ _ _ _ => none
  | .queueBind _ e _ _ _ => some e
  | .basicPublish e _ _ _ _ _ => some e

/-- Collaborator `Basic::basic_publish`: records the call on the channel and
reports the broker's verdict. -/
def basic_publish (broker : Broker) (ch : Channel) (exchange routing_key : String)
    (mandatory immediate : Bool) (properties : BasicProperties)
    (message : List Nat) : Channel × Option String :=
  let call := AmqpCall.basicPublish exchange routing_key mandatory immediate
    properties message
  ({ ch with calls := ch.calls ++ [call] }, broker call)

/-- Collaborator `exchange_declare`: records the call, reports the verdict. -/
def exchange_declare (broker : Broker) (ch : Channel)
    (exchange exchange_type : String)
    (passive durable auto_delete internal nowait : Bool)
    (arguments : List (String × String)) : Channel × Option String :=
  let call := AmqpCall.exchangeDeclare exchange exchange_type passive durable
    auto_delete internal nowait arguments
  ({ ch with calls := ch.calls ++ [call] }, broker call)

/-- Collaborator `queue_declare`: records the call, reports the verdict. -/
def queue_declare (broker : Broker) (ch : Channel) (queue : String)
    (passive durable exclusive auto_delete nowait : Bool)
    (arguments : List (String × String)) : Channel × Option String :=
  let call := AmqpCall.queueDeclare queue passive durable exclusive auto_delete
    nowait arguments
  ({ ch with calls := ch.calls ++ [call] }, broker call)

/-- Collaborator `queue_bind`: records the call, reports the verdict. -/
def queue_bind (broker : Broker) (ch : Channel)
    (queue exchange routing_key : String) (nowait : Bool)
    (arguments : List (String × String)) : Channel × Option String :=
  let call := AmqpCall.queueBind queue exchange routing_key nowait arguments
  ({ ch with calls := ch.calls ++ [call] }, broker call)

/-- `fn post_to_info` (src/lib.rs:265-277): publish to exchange `info-topic`
under the caller's routing key; a publish failure is only printed. -/
def post_to_info (broker : Broker) (ch : Channel) (routing_key : String)
    (message : List Nat) : Channel :=
  let exchange := "info-topic"
  let mandatory := true
  let immediate := false
  let properties : BasicProperties := { content_type := some "text" }
  match basic_publish broker ch exchange routing_key mandatory immediate
      properties message with
  | (ch, some err) =>
      { ch with log := ch.log ++
          ["Error: Couldn\x27t publish message to info-topic exchange: " ++ err] }
  | (ch, none) => ch

/-- `fn post_to_job` (src/lib.rs:281-290): publish with routing key `"job"`;
the exchange argument passed to `basic_publish` is the empty string. -/
def post_to_job (broker : Broker) (ch : Channel) (message : List Nat) : Channel :=
  let mandatory := true
  let immediate := false
  let routing_key := "job"
  let properties : BasicProperties := { content_type := some "text" }
  match basic_publish broker ch "" routing_key mandatory immediate
      properties message with
  | (ch, some err) =>
      { ch with log := ch.log ++
          ["Error: Couldn\x27t publish message to job exchange: " ++ err] }
  | (ch, none) => ch

/-- `fn post_to_work` (src/lib.rs:293-302): publish with routing key `"work"`;
the exchange argument passed to `basic_publish` is the empty string, and the
failure diagnostic names `info-topic`. -/
def post_to_work (broker : Broker) (ch : Channel) (message : List Nat) : Channel :=
  let mandatory := true
  let immediate := false
  let routing_key := "work"
  let properties : BasicProperties := { content_type := some "text" }
  match basic_publish broker ch "" routing_key mandatory immediate
      properties message with
  | (ch, some err) =>
      { ch with log := ch.log ++
          ["Error: Couldn\x27t publish message to info-topic exchange: " ++ err] }
  | (ch, none) => ch

/-- `fn worker_post` (src/lib.rs:305-317): publish to exchange `worker-topic`
under the caller's routing key; the failure diagnostic names `info-topic`. -/
def worker_post (broker : Broker) (ch : Channel) (routing_key : String)
    (message : List Nat) : Channel :=
  let exchange := "worker-topic"
  let mandatory := true
  let immediate := false
  let properties : BasicProperties := { content_type := some "text" }
  match basic_publish broker ch exchange routing_key mandatory immediate
      properties message with
  | (ch, some err) =>
      { ch with log := ch.log ++
          ["Error: Couldn\x27t publish message to info-topic exchange: " ++ err] }
  | (ch, none) => ch

/-- `fn declare_topic_exchange` (src/lib.rs:179-185). -/
def declare_topic_exchange (broker : Broker) (ch : Channel) :
    Channel × Except String Unit :=
  let exchange_name := "info-topic"
  let exchange_type := "topic"
  match exchange_declare broker ch exchange_name exchange_type
      false true false false false [] with
  | (ch, some err) => (ch, Except.error err)
  | (ch, none) => (ch, Except.ok ())

/-- `fn declare_job_exchange` (src/lib.rs:200-207). -/
def declare_job_exchange (broker : Broker) (ch : Channel) :
    Channel × Except String Unit :=
  let exchange_name := "job"
  let exchange_type := "direct"
  match exchange_declare broker ch exchange_name exchange_type
      false true false false false [] with
  | (ch, some err) => (ch, Except.error err)
  | (ch, none) => (ch, Except.ok ())

/-- `fn declare_work_exchange` (src/lib.rs:222-229). -/
def declare_work_exchange (broker : Broker) (ch : Channel) :
    Channel × Except String Unit :=
  let exchange_name := "work"
  let exchange_type := "direct"
  match exchange_declare broker ch exchange_name exchange_type
      false true false false false [] with
  | (ch, some err) => (ch, Except.error err)
  | (ch, none) => (ch, Except.ok ())

/-- `fn declare_worker_exchange` (src/lib.rs:233-240). -/
def declare_worker_exchange (broker : Broker) (ch : Channel) :
    Channel × Except String Unit :=
  let exchange_name := "worker-topic"
  let exchange_type := "topic"
  match exchange_declare broker ch exchange_name exchange_type
      false true false false false [] with
  | (ch, some err) => (ch, Except.error err)
  | (ch, none) => (ch, Except.ok ())

/-- `fn create_info_queue` (src/lib.rs:188-196): declare queue `info`, then
bind it to `info-topic` with pattern `#`. -/
def create_info_queue (broker : Broker) (ch : Channel) :
    Channel × Except String Unit :=
  let queue_name := "info"
  let exchange_name := "info-topic"
  match queue_declare broker ch queue_name false true false false false [] with
  | (ch, some err) => (ch, Except.error err)
  | (ch, none) =>
    match queue_bind broker ch queue_name exchange_name "#" false [] with
    | (ch, some err) => (ch, Except.error err)
    | (ch, none) => (ch, Except.ok ())

/-- `fn create_job_queue` (src/lib.rs:210-218): declare queue `job`; the bind
is commented out in the source, so no bind call is made. -/
def create_job_queue (broker : Broker) (ch : Channel) :
    Channel × Except String Unit :=
  let queue_name := "job"
  match queue_declare broker ch queue_name false true false false false [] with
  | (ch, some err) => (ch, Except.error err)
  | (ch, none) => (ch, Except.ok ())

/-- `fn create_work_queue` (src/lib.rs:243-251): declare queue `work`; the
bind is commented out in the source, so no bind call is made. -/
def create_work_queue (broker : Broker) (ch : Channel) :
    Channel × Except String Unit :=
  let queue_name := "work"
  match queue_declare broker ch queue_name false true false false false [] with
  | (ch, some err) => (ch, Except.error err)
  | (ch, none) => (ch, Except.ok ())

/-- `fn create_worker_queue` (src/lib.rs:254-262): declare queue `worker`,
then bind it to `worker-topic` with pattern `#`. -/
def create_worker_queue (broker : Broker) (ch : Channel) :
    Channel × Except String Unit :=
  let queue_name := "worker"
  let exchange_name := "worker-topic"
  match queue_declare broker ch queue_name false true false false false [] with
  | (ch, some err) => (ch, Except.error err)
  | (ch, none) =>
    match queue_bind broker ch queue_name exchange_name "#" false [] with
    | (ch, some err) => (ch, Except.error err)
    | (ch, none) => (ch, Except.ok ())

/-- The external `bender_job::Job` collaborator, opaque to this core except
for `serialize()` and `id()`; both are modelled as data carried by the job. -/
structure Job where
  serialization : Except String String
  job_id : String

/-- `Job::serialize` of the bender_job collaborator. -/
def Job.serialize (job : Job) : Except String String := job.serialization

/-- `Job::id` of the bender_job collaborator. -/
def Job.id (job : Job) : String := job.job_id

/-- Rust's `Into<Vec<u8>>` on `&str`: the UTF-8 bytes of the string. -/
def strBytes (s : String) : List Nat := s.toUTF8.toList.map UInt8.toNat

/-- `fn post_job` (src/lib.rs:322-330): serialize the job; on success publish
the serialized text via `post_to_job` and return it, otherwise return the
serialization error unchanged. -/
def post_job (broker : Broker) (ch : Channel) (job : Job) :
    Channel × Except String String :=
  match job.serialize with
  | Except.ok json => (post_to_job broker ch (strBytes json), Except.ok json)
  | Except.error err => (ch, Except.error err)

/-- The amqp `Session` collaborator, opaque except for `open_channel`, whose
outcome per channel number is modelled as data carried by the session. -/
structure Session where
  open_channel_outcome : Nat → Except String Channel

/-- The observable result of `fn open_channel`: a returned channel, a
returned error, or a `panic!` (which aborts instead of returning). -/
inductive OpenOutcome where
  | opened (ch : Channel)
  | errored (err : String)
  | panicked (msg : String)
  deriving Repr, DecidableEq

/-- `fn open_channel` (src/lib.rs:160-165): `Session::open_url(url)` is
`unwrap_or_else(panic!)`-ed, then `session.open_channel(1)?` is returned.
`open_url` is the connection collaborator, an oracle from URLs to sessions. -/
def open_channel (open_url : String → Except String Session) (url : String) :
    OpenOutcome :=
  match open_url url with
  | Except.error _ =>
      OpenOutcome.panicked ("Error while opening a connection to " ++ url)
  | Except.ok session =>
    match session.open_channel_outcome 1 with
    | Except.error e => OpenOutcome.errored e
    | Except.ok channel => OpenOutcome.opened channel

/-- The property claim C4 states, written from the spec for comparison with
the code: the result of `open_channel` is either a returned channel or a
returned error (never anything else, such as a panic). -/
def returns_channel_or_error (r : OpenOutcome) : Prop :=
  (∃ ch, r = OpenOutcome.opened ch) ∨ (∃ e, r = OpenOutcome.errored e)

/-- A publish call whose collaborator failure is swallowed: exactly one call
is recorded, and the broker verdict only decides whether a diagnostic line is
appended to the log — no error reaches the caller in either case. -/
def swallowed (broker : Broker) (oldCh newCh : Channel) : Prop :=
  ∃ call, newCh.calls = oldCh.calls ++ [call] ∧
    ((broker call = none ∧ newCh.log = oldCh.log) ∨
     (∃ err, broker call = some err ∧ ∃ line, newCh.log = oldCh.log ++ [line]))

/-- Exactly one message was published, with the standard properties this
library always uses: `content_type = "text"`, `mandatory = true`,
`immediate = false`. -/
def publishedWithStdProps (oldCh newCh : Channel) : Prop :=
  ∃ exchange key body, newCh.calls = oldCh.calls ++
    [AmqpCall.basicPublish exchange key true false { content_type := some "text" } body]

/-- C1 (counterexample): with a succeeding broker and the empty body, the
single message `post_to_job` publishes carries exchange `""` (the AMQP
default exchange), not an exchange named `"job"` as the claim states. -/
theorem C1_counterexample :
    (post_to_job (fun _ => none) Channel.empty []).calls.map AmqpCall.exchangeOf
      = [some ""] ∧ some ("" : String) ≠ some "job" := ⟨rfl, by decide⟩

/-- C1 (amended): for every broker behavior, channel state and message body
(including the empty one), `post_to_job` publishes exactly one message with
routing key exactly `"job"` — but its exchange argument is the empty string,
the AMQP default exchange, rather than the exchange named `"job"`. -/
theorem C1_amended_post_to_job (broker : Broker) (ch : Channel) (body : List Nat) :
    (post_to_job broker ch body).calls =
      ch.calls ++ [AmqpCall.basicPublish "" "job" true false { content_type := some "text" } body] := by
  unfold post_to_job basic_publish
  dsimp only
  cases broker (AmqpCall.basicPublish "" "job" true false { content_type := some "text" } body) <;> rfl

/-- C2 (counterexample): with a succeeding broker and the empty body, the
single message `post_to_work` publishes carries exchange `""` (the AMQP
default exchange), not an exchange named `"work"` as the claim states. -/
theorem C2_counterexample :
    (post_to_work (fun _ => none) Channel.empty []).calls.map AmqpCall.exchangeOf
      = [some ""] ∧ some ("" : String) ≠ some "work" := ⟨rfl, by decide⟩

/-- C2 (amended): for every broker behavior, channel state and message body,
`post_to_work` publishes exactly one message with routing key exactly
`"work"` — but its exchange argument is the empty string, the AMQP default
exchange, rather than the exchange named `"work"`. -/
theorem C2_amended_post_to_work (broker : Broker) (ch : Channel) (body : List Nat) :
    (post_to_work broker ch body).calls =
      ch.calls ++ [AmqpCall.basicPublish "" "work" true false { content_type := some "text" } body] := by
  unfold post_to_work basic_publish
  dsimp only
  cases broker (AmqpCall.basicPublish "" "work" true false { content_type := some "text" } body) <;> rfl

/-- C3: when `job.serialize()` succeeds with `json`, `post_job` returns
`Ok(json)` and hands exactly the bytes of `json` to the publish step (one
publish call, routing key `"job"`); when serialization fails, `post_job`
leaves the channel untouched — no publish call at all — and returns the
serialization error unchanged. -/
theorem C3_post_job_serialization (broker : Broker) (ch : Channel) (job : Job) :
    (∀ json, job.serialize = Except.ok json →
      post_job broker ch job = (post_to_job broker ch (strBytes json), Except.ok json) ∧
      (post_job broker ch job).1.calls = ch.calls ++
        [AmqpCall.basicPublish "" "job" true false { content_type := some "text" } (strBytes json)]) ∧
    (∀ err, job.serialize = Except.error err →
      post_job broker ch job = (ch, Except.error err)) := by
  constructor
  · intro json h
    refine ⟨?_, ?_⟩
    · unfold post_job
      rw [h]
    · unfold post_job
      rw [h]
      dsimp only
      unfold post_to_job basic_publish
      dsimp only
      cases broker (AmqpCall.basicPublish "" "job" true false { content_type := some "text" } (strBytes json)) <;> rfl
  · intro err h
    unfold post_job
    rw [h]

/-- C3 (witness): `C3_post_job_serialization` applied to a job that
serializes to `"x"` and to a job whose serialization fails with `"bad"`. -/
theorem C3_witness :
    (post_job (fun _ => none) Channel.empty { serialization := Except.ok "x", job_id := "j" } =
      (post_to_job (fun _ => none) Channel.empty (strBytes "x"), Except.ok "x")) ∧
    (post_job (fun _ => none) Channel.empty { serialization := Except.error "bad", job_id := "j" } =
      (Channel.empty, Except.error "bad")) :=
  ⟨((C3_post_job_serialization (fun _ => none) Channel.empty
      { serialization := Except.ok "x", job_id := "j" }).1 "x" rfl).1,
   (C3_post_job_serialization (fun _ => none) Channel.empty
      { serialization := Except.error "bad", job_id := "j" }).2 "bad" rfl⟩

/-- C4 (counterexample): when the connection collaborator rejects the URL,
`open_channel` neither returns a channel nor returns an error — it panics
(`unwrap_or_else(panic!)` in the source), refuting the claim that
session-open failure is reported as a returned error. -/
theorem C4_counterexample :
    ¬ returns_channel_or_error
      (open_channel (fun _ => Except.error "connection refused") "amqp://localhost//") := by
  unfold returns_channel_or_error open_channel
  dsimp only
  rintro (⟨c, h⟩ | ⟨e, h⟩) <;> exact OpenOutcome.noConfusion h

/-- C4 (amended): `open_channel` opens channel number 1 on the session and
returns it; a channel-open failure is propagated as a returned error and a
successfully returned channel is always one the collaborator actually
opened — but a session-open failure causes a panic naming the URL, not a
returned `ConnectionError`. -/
theorem C4_amended_open_channel (open_url : String → Except String Session) (url : String) :
    (∀ session channel, open_url url = Except.ok session →
      session.open_channel_outcome 1 = Except.ok channel →
      open_channel open_url url = OpenOutcome.opened channel) ∧
    (∀ session e, open_url url = Except.ok session →
      session.open_channel_outcome 1 = Except.error e →
      open_channel open_url url = OpenOutcome.errored e) ∧
    (∀ e, open_url url = Except.error e →
      open_channel open_url url =
        OpenOutcome.panicked ("Error while opening a connection to " ++ url)) := by
  refine ⟨?_, ?_, ?_⟩
  · intro session channel h1 h2
    unfold open_channel
    simp only [h1, h2]
  · intro session e h1 h2
    unfold open_channel
    simp only [h1, h2]
  · intro e h1
    unfold open_channel
    simp only [h1]

/-- C4 (witness): `C4_amended_open_channel` applied to a collaborator that
opens every session and channel, and to one that refuses the connection. -/
theorem C4_witness :
    (open_channel
      (fun _ => Except.ok { open_channel_outcome := fun _ => Except.ok Channel.empty })
      "amqp://localhost//" = OpenOutcome.opened Channel.empty) ∧
    (open_channel (fun _ => Except.error "refused") "amqp://localhost//" =
      OpenOutcome.panicked ("Error while opening a connection to " ++ "amqp://localhost//")) :=
  ⟨(C4_amended_open_channel
      (fun _ => Except.ok { open_channel_outcome := fun _ => Except.ok Channel.empty })
      "amqp://localhost//").1 _ _ rfl rfl,
   (C4_amended_open_channel (fun _ => Except.error "refused") "amqp://localhost//").2.2 "refused" rfl⟩

/-- C5: in all four publish operations, for every broker behavior, a publish
failure never reaches the caller: the operation still records its single
publish call and completes (its return type carries no error), appending one
diagnostic line to the log exactly when the collaborator reported an error
and leaving the log untouched when it succeeded. -/
theorem C5_publish_failures_swallowed (broker : Broker) (ch : Channel) (key : String) (body : List Nat) :
    swallowed broker ch (post_to_info broker ch key body) ∧
    swallowed broker ch (post_to_job broker ch body) ∧
    swallowed broker ch (post_to_work broker ch body) ∧
    swallowed broker ch (worker_post broker ch key body) := by
  refine ⟨?_, ?_, ?_, ?_⟩
  · unfold swallowed post_to_info basic_publish
    dsimp only
    cases h : broker (AmqpCall.basicPublish "info-topic" key true false { content_type := some "text" } body) with
    | none => exact ⟨_, rfl, Or.inl ⟨h, rfl⟩⟩
    | some err => exact ⟨_, rfl, Or.inr ⟨err, h, _, rfl⟩⟩
  · unfold swallowed post_to_job basic_publish
    dsimp only
    cases h : broker (AmqpCall.basicPublish "" "job" true false { content_type := some "text" } body) with
    | none => exact ⟨_, rfl, Or.inl ⟨h, rfl⟩⟩
    | some err => exact ⟨_, rfl, Or.inr ⟨err, h, _, rfl⟩⟩
  · unfold swallowed post_to_work basic_publish
    dsimp only
    cases h : broker (AmqpCall.basicPublish "" "work" true false { content_type := some "text" } body) with
    | none => exact ⟨_, rfl, Or.inl ⟨h, rfl⟩⟩
    | some err => exact ⟨_, rfl, Or.inr ⟨err, h, _, rfl⟩⟩
  · unfold swallowed worker_post basic_publish
    dsimp only
    cases h : broker (AmqpCall.basicPublish "worker-topic" key true false { content_type := some "text" } body) with
    | none => exact ⟨_, rfl, Or.inl ⟨h, rfl⟩⟩
    | some err => exact ⟨_, rfl, Or.inr ⟨err, h, _, rfl⟩⟩

/-- C6: each of the four exchange-declaration operations records exactly one
exchange-declare call, with the table's name and kind and with
`passive = false`, `durable = true`, `auto_delete = false`,
`internal = false`, `nowait = false` (and empty arguments), for every broker
behavior and channel state. -/
theorem C6_declare_exchanges (broker : Broker) (ch : Channel) :
    ((declare_topic_exchange broker ch).1.calls =
      ch.calls ++ [AmqpCall.exchangeDeclare "info-topic" "topic" false true false false false []]) ∧
    ((declare_job_exchange broker ch).1.calls =
      ch.calls ++ [AmqpCall.exchangeDeclare "job" "direct" false true false false false []]) ∧
    ((declare_work_exchange broker ch).1.calls =
      ch.calls ++ [AmqpCall.exchangeDeclare "work" "direct" false true false false false []]) ∧
    ((declare_worker_exchange broker ch).1.calls =
      ch.calls ++ [AmqpCall.exchangeDeclare "worker-topic" "topic" false true false false false []]) := by
  refine ⟨?_, ?_, ?_, ?_⟩
  · unfold declare_topic_exchange exchange_declare
    dsimp only
    cases broker (AmqpCall.exchangeDeclare "info-topic" "topic" false true false false false []) <;> rfl
  · unfold declare_job_exchange exchange_declare
    dsimp only
    cases broker (AmqpCall.exchangeDeclare "job" "direct" false true false false false []) <;> rfl
  · unfold declare_work_exchange exchange_declare
    dsimp only
    cases broker (AmqpCall.exchangeDeclare "work" "direct" false true false false false []) <;> rfl
  · unfold declare_worker_exchange exchange_declare
    dsimp only
    cases broker (AmqpCall.exchangeDeclare "worker-topic" "topic" false true false false false []) <;> rfl

/-- C7: `create_job_queue` and `create_work_queue` record exactly one
queue-declare call (with `passive = false`, `durable = true`,
`exclusive = false`, `auto_delete = false`, `nowait = false`) and no bind
call at all, for every broker behavior; `create_info_queue` and
`create_worker_queue` record the same declare first and, whenever the
declare succeeds, exactly one bind of `info` to `info-topic` resp. `worker`
to `worker-topic` with pattern `"#"`. -/
theorem C7_create_queues (broker : Broker) (ch : Channel) :
    ((create_job_queue broker ch).1.calls =
      ch.calls ++ [AmqpCall.queueDeclare "job" false true false false false []]) ∧
    ((create_work_queue broker ch).1.calls =
      ch.calls ++ [AmqpCall.queueDeclare "work" false true false false false []]) ∧
    (broker (AmqpCall.queueDeclare "info" false true false false false []) = none →
      (create_info_queue broker ch).1.calls =
        ch.calls ++ [AmqpCall.queueDeclare "info" false true false false false [],
          AmqpCall.queueBind "info" "info-topic" "#" false []]) ∧
    (broker (AmqpCall.queueDeclare "worker" false true false false false []) = none →
      (create_worker_queue broker ch).1.calls =
        ch.calls ++ [AmqpCall.queueDeclare "worker" false true false false false [],
          AmqpCall.queueBind "worker" "worker-topic" "#" false []]) := by
  refine ⟨?_, ?_, ?_, ?_⟩
  · unfold create_job_queue queue_declare
    dsimp only
    cases broker (AmqpCall.queueDeclare "job" false true false false false []) <;> rfl
  · unfold create_work_queue queue_declare
    dsimp only
    cases broker (AmqpCall.queueDeclare "work" false true false false false []) <;> rfl
  · intro h
    unfold create_info_queue queue_declare queue_bind
    dsimp only
    rw [h]
    cases broker (AmqpCall.queueBind "info" "info-topic" "#" false []) <;> simp
  · intro h
    unfold create_worker_queue queue_declare queue_bind
    dsimp only
    rw [h]
    cases broker (AmqpCall.queueBind "worker" "worker-topic" "#" false []) <;> simp

/-- C7 (witness): `C7_create_queues` applied to a broker that accepts every
call, on a fresh channel. -/
theorem C7_witness :
    ((create_info_queue (fun _ => none) Channel.empty).1.calls =
      Channel.empty.calls ++ [AmqpCall.queueDeclare "info" false true false false false [],
        AmqpCall.queueBind "info" "info-topic" "#" false []]) ∧
    ((create_worker_queue (fun _ => none) Channel.empty).1.calls =
      Channel.empty.calls ++ [AmqpCall.queueDeclare "worker" false true false false false [],
        AmqpCall.queueBind "worker" "worker-topic" "#" false []]) :=
  ⟨(C7_create_queues (fun _ => none) Channel.empty).2.2.1 rfl,
   (C7_create_queues (fun _ => none) Channel.empty).2.2.2 rfl⟩

/-- C8: for every caller-supplied routing key (including `""` and keys
containing `.`) and every body, `post_to_info` records exactly one publish
to exchange `"info-topic"` and `worker_post` exactly one publish to
`"worker-topic"`, each carrying the caller's key verbatim. -/
theorem C8_routed_publishes (broker : Broker) (ch : Channel) (key : String) (body : List Nat) :
    ((post_to_info broker ch key body).calls =
      ch.calls ++ [AmqpCall.basicPublish "info-topic" key true false { content_type := some "text" } body]) ∧
    ((worker_post broker ch key body).calls =
      ch.calls ++ [AmqpCall.basicPublish "worker-topic" key true false { content_type := some "text" } body]) := by
  constructor
  · unfold post_to_info basic_publish
    dsimp only
    cases broker (AmqpCall.basicPublish "info-topic" key true false { content_type := some "text" } body) <;> rfl
  · unfold worker_post basic_publish
    dsimp only
    cases broker (AmqpCall.basicPublish "worker-topic" key true false { content_type := some "text" } body) <;> rfl

/-- C9: every one of the four publish operations records exactly one publish
call, and that call has `content_type = "text"`, `mandatory = true`,
`immediate = false`, for every broker behavior, key and body. -/
theorem C9_publish_properties (broker : Broker) (ch : Channel) (key : String) (body : List Nat) :
    publishedWithStdProps ch (post_to_info broker ch key body) ∧
    publishedWithStdProps ch (post_to_job broker ch body) ∧
    publishedWithStdProps ch (post_to_work broker ch body) ∧
    publishedWithStdProps ch (worker_post broker ch key body) := by
  refine ⟨⟨"info-topic", key, body, ?_⟩, ⟨"", "job", body, ?_⟩,
    ⟨"", "work", body, ?_⟩, ⟨"worker-topic", key, body, ?_⟩⟩
  · unfold post_to_info basic_publish
    dsimp only
    cases broker (AmqpCall.basicPublish "info-topic" key true false { content_type := some "text" } body) <;> rfl
  · unfold post_to_job basic_publish
    dsimp only
    cases broker (AmqpCall.basicPublish "" "job" true false { content_type := some "text" } body) <;> rfl
  · unfold post_to_work basic_publish
    dsimp only
    cases broker (AmqpCall.basicPublish "" "work" true false { content_type := some "text" } body) <;> rfl
  · unfold worker_post basic_publish
    dsimp only
    cases broker (AmqpCall.basicPublish "worker-topic" key true false { content_type := some "text" } body) <;> rfl

/-- C10 (counterexample): the claim says the failure diagnostic of
`post_to_work` names `"info-topic"` instead of the exchange the operation
actually targets, which the claim gives as `"work"`; the diagnostic indeed
names `"info-topic"`, but the exchange actually targeted is `""` (the
default exchange), not `"work"`. -/
theorem C10_counterexample :
    ((post_to_work (fun _ => some "publish failed") Channel.empty []).log =
      ["Error: Couldn\x27t publish message to info-topic exchange: " ++ "publish failed"]) ∧
    ((post_to_work (fun _ => some "publish failed") Channel.empty []).calls.map AmqpCall.exchangeOf
      = [some ""]) ∧
    some ("" : String) ≠ some "work" := ⟨rfl, rfl, by decide⟩

/-- C10 (amended): whenever the underlying publish fails inside
`post_to_work` or `worker_post`, the diagnostic line names `"info-topic"`,
which differs from the exchange the publish call actually carried — `""`
(the default exchange; not `"work"`) for `post_to_work` and `"worker-topic"`
for `worker_post` — so the diagnostic never identifies the true exchange. -/
theorem C10_wrong_exchange_in_diagnostic (broker : Broker) (ch : Channel) (key : String) (body : List Nat) (err : String) :
    (broker (AmqpCall.basicPublish "" "work" true false { content_type := some "text" } body) = some err →
      (post_to_work broker ch body).log =
        ch.log ++ ["Error: Couldn\x27t publish message to info-topic exchange: " ++ err] ∧
      (post_to_work broker ch body).calls =
        ch.calls ++ [AmqpCall.basicPublish "" "work" true false { content_type := some "text" } body] ∧
      ("" : String) ≠ "info-topic") ∧
    (broker (AmqpCall.basicPublish "worker-topic" key true false { content_type := some "text" } body) = some err →
      (worker_post broker ch key body).log =
        ch.log ++ ["Error: Couldn\x27t publish message to info-topic exchange: " ++ err] ∧
      (worker_post broker ch key body).calls =
        ch.calls ++ [AmqpCall.basicPublish "worker-topic" key true false { content_type := some "text" } body] ∧
      ("worker-topic" : String) ≠ "info-topic") := by
  constructor
  · intro h
    unfold post_to_work basic_publish
    dsimp only
    rw [h]
    exact ⟨rfl, rfl, by decide⟩
  · intro h
    unfold worker_post basic_publish
    dsimp only
    rw [h]
    exact ⟨rfl, rfl, by decide⟩

/-- C10 (witness): `C10_wrong_exchange_in_diagnostic` applied to a broker
that fails every publish with `"oops"`, on a fresh channel. -/
theorem C10_witness :
    ((post_to_work (fun _ => some "oops") Channel.empty []).log =
      Channel.empty.log ++ ["Error: Couldn\x27t publish message to info-topic exchange: " ++ "oops"]) ∧
    ((worker_post (fun _ => some "oops") Channel.empty "status.render" []).log =
      Channel.empty.log ++ ["Error: Couldn\x27t publish message to info-topic exchange: " ++ "oops"]) :=
  ⟨((C10_wrong_exchange_in_diagnostic (fun _ => some "oops") Channel.empty "status.render" [] "oops").1 rfl).1,
   ((C10_wrong_exchange_in_diagnostic (fun _ => some "oops") Channel.empty "status.render" [] "oops").2 rfl).1⟩
